import Mathlib

/-!
Shallow embedding of the HTTP handlers of the printer-supplies service
(`src/handlers/brand.rs` and `src/handlers/printer.rs`).

Modelling conventions:
* The relational store is a pure value: the `brands` table is a
  `List Brand`, the `printers` table a `List Printer`.
* `Uuid` values are modelled as `Nat` (only identity matters to the
  handlers).
* Every sqlx call can fail; each handler takes one `Bool` per storage
  round trip, `true` meaning that call returns `Err`.
* Rust `String::len` is the UTF-8 byte length, embedded as
  `String.utf8ByteSize`; `String::is_empty` is `len() == 0`.
* A Rust `.unwrap()` panic (printer module) is embedded as `none` in an
  `Option`-valued result: no HTTP response, and the store is returned as
  it was when the request aborted.
* A handler returns its `StatusCode` (or plain JSON value, for the
  handlers whose Rust return type is `Json<_>`) together with the store
  after the request.
-/

/-- HTTP status codes produced by the handlers. -/
inductive StatusCode where
  | ok
  | created
  | badRequest
  | notFound
  | conflict
  | internalServerError
  deriving DecidableEq, Repr

/-- A row of the `brands` table (`id uuid, name text`). -/
structure Brand where
  id : Nat
  name : String
  deriving DecidableEq, Repr

/-- A row of the `printers` table. -/
structure Printer where
  id : Nat
  name : String
  model : String
  brand : Nat
  toner : Nat
  drum : Nat
  deriving DecidableEq, Repr

/-- Which branch of `create_brand` fired.  The Rust handler logs a
distinct message on every branch, which makes the evaluation order of its
checks observable. -/
inductive CreateBrandOutcome where
  | dupCheckError
  | conflict
  | emptyName
  | nameTooShort
  | nameTooLong
  | created
  | insertError
  deriving DecidableEq, Repr

/-- Status code returned by each `create_brand` branch. -/
def CreateBrandOutcome.status : CreateBrandOutcome → StatusCode
  | .dupCheckError => .internalServerError
  | .conflict => .conflict
  | .emptyName => .badRequest
  | .nameTooShort => .badRequest
  | .nameTooLong => .badRequest
  | .created => .created
  | .insertError => .internalServerError

/-- `create_brand` (brand.rs, lines 75-133).  `newId` is the fresh
identifier produced by `Brand::new`; `dupCheckFails` and `insertFails`
are the failure oracles of its two storage round trips, in program
order. -/
def create_brand (db : List Brand) (newId : Nat) (name : String)
    (dupCheckFails insertFails : Bool) : CreateBrandOutcome × List Brand :=
  -- match sqlx::query("SELECT id FROM brands WHERE name = $1")
  if dupCheckFails then (.dupCheckError, db)
  else if ∃ b ∈ db, b.name = name then (.conflict, db)
  else if name.utf8ByteSize = 0 then (.emptyName, db)
  else if name.utf8ByteSize < 4 then (.nameTooShort, db)
  else if name.utf8ByteSize > 20 then (.nameTooLong, db)
  -- INSERT INTO brands (id, name) VALUES ($1, $2)
  else if insertFails then (.insertError, db)
  else (.created, db ++ [⟨newId, name⟩])

/-- Status code of a `create_brand` request. -/
def create_brand_status (db : List Brand) (newId : Nat) (name : String)
    (dupCheckFails insertFails : Bool) : StatusCode :=
  (create_brand db newId name dupCheckFails insertFails).1.status

/-- `update_brand` (brand.rs, lines 135-210).  The three failure oracles
correspond to the id lookup, the duplicate check and the UPDATE
statement, in program order. -/
def update_brand (db : List Brand) (id : Nat) (newName : String)
    (idCheckFails dupCheckFails updateFails : Bool) : StatusCode × List Brand :=
  -- match sqlx::query("SELECT id FROM brands WHERE id = $1")
  if idCheckFails then (.internalServerError, db)
  else if ∃ b ∈ db, b.id = id then
    if newName.utf8ByteSize = 0 then (.badRequest, db)
    else if newName.utf8ByteSize < 4 then (.badRequest, db)
    else if newName.utf8ByteSize > 20 then (.badRequest, db)
    -- SELECT id FROM brands WHERE name = $1 AND id != $2
    else if dupCheckFails then (.internalServerError, db)
    else if ∃ b ∈ db, b.name = newName ∧ b.id ≠ id then (.badRequest, db)
    -- UPDATE brands SET name = $1 WHERE id = $2
    else if updateFails then (.internalServerError, db)
    else (.ok, db.map fun b => if b.id = id then { b with name := newName } else b)
  else (.notFound, db)

/-- `delete_brand` (brand.rs, lines 212-246).  Failure oracles: the id
lookup and the DELETE statement. -/
def delete_brand (db : List Brand) (id : Nat)
    (idCheckFails deleteFails : Bool) : StatusCode × List Brand :=
  if idCheckFails then (.internalServerError, db)
  else if ∃ b ∈ db, b.id = id then
    if deleteFails then (.internalServerError, db)
    -- DELETE FROM brands WHERE id = $1
    else (.ok, db.filter fun b => b.id ≠ id)
  else (.notFound, db)

/-- `count_brands` (brand.rs, lines 17-33).  Always `Json<i32>`: a
storage failure is swallowed into `Json(0)`. -/
def count_brands (db : List Brand) (countFails : Bool) : Int :=
  if countFails then 0 else db.length

/-- `show_brands` (brand.rs, lines 59-73).  Always `Json<Vec<Brand>>`: a
storage failure is swallowed into `Json(Vec::new())`. -/
def show_brands (db : List Brand) (fetchFails : Bool) : List Brand :=
  if fetchFails then [] else db

/-- `show_printers` (printer.rs, lines 11-17).  The fetch result is
`unwrap`ped: a storage failure panics, modelled as `none`. -/
def show_printers (db : List Printer) (fetchFails : Bool) : Option (List Printer) :=
  if fetchFails then none else some db

/-- `count_printers` (printer.rs, lines 19-25).  Same `unwrap` as
`show_printers`. -/
def count_printers (db : List Printer) (countFails : Bool) : Option Int :=
  if countFails then none else some (db.length : Int)

/-- `create_printer` (printer.rs, lines 27-57).  `brand`, `toner`,
`drum` are the results of the three external `Uuid::from_str` calls
(`none` = parse error); each result is `unwrap`ped in that order before
the INSERT runs.  A `none` status means the request aborted by panic;
the store component is the store at the moment of abort. -/
def create_printer (db : List Printer) (newId : Nat) (name model : String)
    (brand toner drum : Option Nat) (insertFails : Bool) :
    Option StatusCode × List Printer :=
  match brand with
  | none => (none, db)
  | some b =>
    match toner with
    | none => (none, db)
    | some t =>
      match drum with
      | none => (none, db)
      | some d =>
        -- INSERT INTO printers (id, name, model, brand, toner, drum)
        if insertFails then (some .internalServerError, db)
        else (some .created, db ++ [⟨newId, name, model, b, t, d⟩])

/-- `delete_printer` (printer.rs, lines 59-71).  No existence pre-check:
the DELETE statement is issued unconditionally. -/
def delete_printer (db : List Printer) (id : Nat)
    (deleteFails : Bool) : StatusCode × List Printer :=
  if deleteFails then (.internalServerError, db)
  else (.ok, db.filter fun p => p.id ≠ id)

/-- C6: when the storage round trip fails, `count_brands` still answers
successfully with the integer 0, and `show_brands` still answers
successfully with the empty list; neither handler can surface an error
status (their Rust return types, `Json<i32>` and `Json<Vec<Brand>>`,
carry no status code at all). -/
theorem brand_reads_swallow_storage_failures (db : List Brand) :
    count_brands db true = 0 ∧ show_brands db true = [] :=
  ⟨rfl, rfl⟩

/-- C7: when the storage round trip fails, `show_printers` and
`count_printers` produce no HTTP response at all: the `.unwrap()`
panics, modelled as `none`, in contrast to the brand module's graceful
defaults. -/
theorem printer_reads_abort_on_storage_failure (db : List Printer) :
    show_printers db true = none ∧ count_printers db true = none :=
  ⟨rfl, rfl⟩

/-- Helper: a duplicate name makes `create_brand` take the conflict
branch, whatever the insert oracle says. -/
lemma create_brand_dup (db : List Brand) (id : Nat) (name : String)
    (insertFails : Bool) (hdup : ∃ b ∈ db, b.name = name) :
    create_brand db id name false insertFails = (.conflict, db) := by
  simp [create_brand, hdup]

/-- Helper: with no duplicate and a name of 4-20 bytes, `create_brand`
with a healthy store inserts the brand. -/
lemma create_brand_fresh_valid (db : List Brand) (id : Nat) (name : String)
    (hlo : 4 ≤ name.utf8ByteSize) (hhi : name.utf8ByteSize ≤ 20)
    (hne : ¬ ∃ b ∈ db, b.name = name) :
    create_brand db id name false false = (.created, db ++ [⟨id, name⟩]) := by
  have h0 : ¬ name.utf8ByteSize = 0 := by omega
  have h4 : ¬ name.utf8ByteSize < 4 := by omega
  have h20 : ¬ name.utf8ByteSize > 20 := by omega
  simp [create_brand, hne, h0, h4, h20]

/-- C1: for a name of valid length (4-20 bytes) matching no stored
brand, `create_brand` returns 201 (created) and appends the new brand;
an immediately following create with the identical name returns 409
(conflict) and leaves the store unchanged. -/
theorem create_brand_unique_then_conflict (db : List Brand) (id1 id2 : Nat)
    (name : String)
    (hlen : 4 ≤ name.utf8ByteSize ∧ name.utf8ByteSize ≤ 20)
    (hfresh : ∀ b ∈ db, b.name ≠ name) :
    create_brand_status db id1 name false false = .created ∧
    (create_brand db id1 name false false).2 = db ++ [⟨id1, name⟩] ∧
    create_brand_status (db ++ [⟨id1, name⟩]) id2 name false false = .conflict ∧
    (create_brand (db ++ [⟨id1, name⟩]) id2 name false false).2 = db ++ [⟨id1, name⟩] := by
  have hne : ¬ ∃ b ∈ db, b.name = name := by
    rintro ⟨b, hb, hbn⟩
    exact hfresh b hb hbn
  have hdup : ∃ b ∈ db ++ [(⟨id1, name⟩ : Brand)], b.name = name :=
    ⟨⟨id1, name⟩, by simp, rfl⟩
  have h1 := create_brand_fresh_valid db id1 name hlen.1 hlen.2 hne
  have h2 := create_brand_dup (db ++ [⟨id1, name⟩]) id2 name false hdup
  refine ⟨?_, ?_, ?_, ?_⟩ <;>
    simp [create_brand_status, h1, h2, CreateBrandOutcome.status]

/-- Witness for C1 at the spec's own example name. -/
theorem create_brand_unique_then_conflict_witness :
    create_brand_status [] 0 "Acme" false false = .created ∧
    (create_brand [] 0 "Acme" false false).2 = [] ++ [⟨0, "Acme"⟩] ∧
    create_brand_status ([] ++ [⟨0, "Acme"⟩]) 1 "Acme" false false = .conflict ∧
    (create_brand ([] ++ [⟨0, "Acme"⟩]) 1 "Acme" false false).2 = [] ++ [⟨0, "Acme"⟩] :=
  create_brand_unique_then_conflict [] 0 1 "Acme" (by decide) (by decide)

/-- C3: the duplicate-name check of `create_brand` runs before any name
validation: an exact duplicate yields outcome `conflict` (status 409)
whatever the name's length, even empty; only when no duplicate exists do
the validation branches fire, and they fire in the order empty,
too-short, too-long (the three branches log distinct messages, all
mapping to status 400). -/
theorem create_brand_conflict_short_circuits (db : List Brand) (id : Nat)
    (name : String) (insertFails : Bool) :
    ((∃ b ∈ db, b.name = name) →
      create_brand db id name false insertFails = (.conflict, db) ∧
      create_brand_status db id name false insertFails = .conflict) ∧
    ((¬ ∃ b ∈ db, b.name = name) →
      (name.utf8ByteSize = 0 →
        create_brand db id name false insertFails = (.emptyName, db)) ∧
      (name.utf8ByteSize ≠ 0 → name.utf8ByteSize < 4 →
        create_brand db id name false insertFails = (.nameTooShort, db)) ∧
      (4 ≤ name.utf8ByteSize → 20 < name.utf8ByteSize →
        create_brand db id name false insertFails = (.nameTooLong, db))) := by
  constructor
  · intro hdup
    simp [create_brand, create_brand_status, CreateBrandOutcome.status, hdup]
  · intro hne
    refine ⟨fun h0 => ?_, fun h0 h4 => ?_, fun h4 h20 => ?_⟩
    · simp [create_brand, hne, h0]
    · simp [create_brand, hne, h0, h4]
    · have h0 : ¬ name.utf8ByteSize = 0 := by omega
      have hlt : ¬ name.utf8ByteSize < 4 := by omega
      simp [create_brand, hne, h0, hlt, h20]

/-- Witness for C3: a one-character duplicate yields 409, and with no
duplicate present the empty / too-short / too-long branches fire. -/
theorem create_brand_conflict_short_circuits_witness :
    (create_brand [⟨0, "ab"⟩] 1 "ab" false false = (.conflict, [⟨0, "ab"⟩]) ∧
      create_brand_status [⟨0, "ab"⟩] 1 "ab" false false = .conflict) ∧
    create_brand [] 1 "" false false = (.emptyName, []) ∧
    create_brand [] 1 "ab" false false = (.nameTooShort, []) ∧
    create_brand [] 1 "abcdefghijklmnopqrstu" false false = (.nameTooLong, []) :=
  ⟨(create_brand_conflict_short_circuits [⟨0, "ab"⟩] 1 "ab" false).1 (by decide),
    ((create_brand_conflict_short_circuits [] 1 "" false).2 (by decide)).1 (by decide),
    ((create_brand_conflict_short_circuits [] 1 "ab" false).2 (by decide)).2.1
      (by decide) (by decide),
    ((create_brand_conflict_short_circuits [] 1 "abcdefghijklmnopqrstu" false).2
      (by decide)).2.2 (by decide) (by decide)⟩

/-- C2 counterexample: the claim says an invalid-length name yields 400
"regardless of whether a brand with that name already exists in
storage", but when a stored brand carries that exact (2-byte) name the
duplicate check fires first and the status is 409, not 400. -/
theorem create_brand_invalid_dup_is_conflict_cex :
    "ab".utf8ByteSize = 2 ∧
    (∃ b ∈ [(⟨0, "ab"⟩ : Brand)], b.name = "ab") ∧
    create_brand_status [⟨0, "ab"⟩] 1 "ab" false false = .conflict ∧
    create_brand_status [⟨0, "ab"⟩] 1 "ab" false false ≠ .badRequest := by
  decide

/-- C2 (amended): a create request whose name has byte length 0, 1-3 or
21+ returns 400 and inserts nothing, provided no stored brand carries
that exact name (a stored duplicate yields 409 first). -/
theorem create_brand_invalid_length_bad_request (db : List Brand) (id : Nat)
    (name : String) (insertFails : Bool)
    (hbad : name.utf8ByteSize < 4 ∨ 20 < name.utf8ByteSize)
    (hfresh : ∀ b ∈ db, b.name ≠ name) :
    create_brand_status db id name false insertFails = .badRequest ∧
    (create_brand db id name false insertFails).2 = db := by
  have hne : ¬ ∃ b ∈ db, b.name = name := by
    rintro ⟨b, hb, hbn⟩
    exact hfresh b hb hbn
  rcases hbad with hlt | hgt
  · by_cases h0 : name.utf8ByteSize = 0
    · constructor <;>
        simp [create_brand_status, create_brand, CreateBrandOutcome.status, hne, h0]
    · constructor <;>
        simp [create_brand_status, create_brand, CreateBrandOutcome.status, hne, h0, hlt]
  · have h0 : ¬ name.utf8ByteSize = 0 := by omega
    have h4 : ¬ name.utf8ByteSize < 4 := by omega
    constructor <;>
      simp [create_brand_status, create_brand, CreateBrandOutcome.status, hne, h0, h4, hgt]

/-- Witness for the amended C2: a 2-byte name on an empty store. -/
theorem create_brand_invalid_length_bad_request_witness :
    create_brand_status [] 1 "ab" false false = .badRequest ∧
    (create_brand [] 1 "ab" false false).2 = [] :=
  create_brand_invalid_length_bad_request [] 1 "ab" false (by decide) (by decide)

/-- C5 counterexample: validation is not by character count.  The
2-character name "éé" (4 UTF-8 bytes) has character count outside
[4, 20] yet passes the length checks and is created; the 11-character
name "ééééééééééé" (22 bytes) has character count inside [4, 20] yet is
rejected with 400. -/
theorem brand_name_charcount_cex :
    "éé".length = 2 ∧
    create_brand_status [] 0 "éé" false false = .created ∧
    create_brand_status [] 0 "éé" false false ≠ .badRequest ∧
    "ééééééééééé".length = 11 ∧
    create_brand_status [] 0 "ééééééééééé" false false = .badRequest := by
  decide

/-- C5 (amended): a brand name passes create/update length validation
exactly when its UTF-8 byte count (Rust `String::len`) lies in [4, 20]:
on an otherwise empty store, create returns 201 exactly for such names
and 400 exactly for the others, and likewise update (to a brand that
exists and owns the name check's excluded id) returns 200 exactly for
such names and 400 for the others. -/
theorem brand_name_validation_byte_length (name : String) :
    (create_brand_status [] 0 name false false = .created ↔
      4 ≤ name.utf8ByteSize ∧ name.utf8ByteSize ≤ 20) ∧
    (create_brand_status [] 0 name false false = .badRequest ↔
      (name.utf8ByteSize < 4 ∨ 20 < name.utf8ByteSize)) ∧
    ((update_brand [⟨7, "OwnBrand"⟩] 7 name false false false).1 = .ok ↔
      4 ≤ name.utf8ByteSize ∧ name.utf8ByteSize ≤ 20) ∧
    ((update_brand [⟨7, "OwnBrand"⟩] 7 name false false false).1 = .badRequest ↔
      (name.utf8ByteSize < 4 ∨ 20 < name.utf8ByteSize)) := by
  by_cases h0 : name.utf8ByteSize = 0 <;>
    by_cases h4 : name.utf8ByteSize < 4 <;>
      by_cases h20 : 20 < name.utf8ByteSize <;>
        refine ⟨?_, ?_, ?_, ?_⟩ <;>
          simp [create_brand_status, create_brand, CreateBrandOutcome.status,
            update_brand, h0, h4, h20] <;>
            omega

/-- Witness for the amended C5 at an 8-byte name. -/
theorem brand_name_validation_byte_length_witness :
    create_brand_status [] 0 "AcmeCorp" false false = .created ∧
    (update_brand [⟨7, "OwnBrand"⟩] 7 "AcmeCorp" false false false).1 = .ok :=
  ⟨(brand_name_validation_byte_length "AcmeCorp").1.mpr (by decide),
    (brand_name_validation_byte_length "AcmeCorp").2.2.1.mpr (by decide)⟩

/-- C4: with an existing target id and a valid-length new name, an
update whose new name is carried by a different brand (different id)
returns 400 — not the 409 that create uses — while an update to a name
whose only carrier in a duplicate-free store is the target itself (in
particular, the target's own current name) passes the id-excluding
duplicate check and returns 200. -/
theorem update_brand_duplicate_policy (db : List Brand) (id : Nat)
    (newName : String)
    (hid : ∃ b ∈ db, b.id = id)
    (hlen : 4 ≤ newName.utf8ByteSize ∧ newName.utf8ByteSize ≤ 20) :
    ((∃ b ∈ db, b.name = newName ∧ b.id ≠ id) →
      (update_brand db id newName false false false).1 = .badRequest ∧
      (update_brand db id newName false false false).1 ≠ .conflict) ∧
    (db.Pairwise (fun a b => a.name ≠ b.name) →
      (∃ b ∈ db, b.id = id ∧ b.name = newName) →
      (update_brand db id newName false false false).1 = .ok) := by
  have h0 : ¬ newName.utf8ByteSize = 0 := by omega
  have h4 : ¬ newName.utf8ByteSize < 4 := by omega
  have h20 : ¬ newName.utf8ByteSize > 20 := by omega
  constructor
  · intro hdup
    constructor <;> simp [update_brand, hid, h0, h4, h20, hdup]
  · intro huniq hown
    obtain ⟨b0, hb0, hb0id, hb0name⟩ := hown
    have hnodup : ¬ ∃ b ∈ db, b.name = newName ∧ b.id ≠ id := by
      rintro ⟨b, hb, hbname, hbid⟩
      have hneq : b ≠ b0 := by
        intro heq
        exact hbid (heq ▸ hb0id)
      have hsymm : Symmetric fun a b : Brand => a.name ≠ b.name :=
        fun a b hab h => hab h.symm
      exact huniq.forall hsymm hb hb0 hneq (hbname.trans hb0name.symm)
    simp [update_brand, hid, h0, h4, h20, hnodup]

/-- Witness for C4: renaming brand 1 to brand 2's name gives 400;
renaming brand 1 to its own name gives 200. -/
theorem update_brand_duplicate_policy_witness :
    ((update_brand [⟨1, "AcmeCorp"⟩, ⟨2, "BetaCorp"⟩] 1 "BetaCorp"
        false false false).1 = .badRequest ∧
      (update_brand [⟨1, "AcmeCorp"⟩, ⟨2, "BetaCorp"⟩] 1 "BetaCorp"
        false false false).1 ≠ .conflict) ∧
    (update_brand [⟨1, "AcmeCorp"⟩, ⟨2, "BetaCorp"⟩] 1 "AcmeCorp"
        false false false).1 = .ok :=
  ⟨(update_brand_duplicate_policy [⟨1, "AcmeCorp"⟩, ⟨2, "BetaCorp"⟩] 1 "BetaCorp"
      (by decide) (by decide)).1 (by decide),
    (update_brand_duplicate_policy [⟨1, "AcmeCorp"⟩, ⟨2, "BetaCorp"⟩] 1 "AcmeCorp"
      (by decide) (by decide)).2 (by decide) (by decide)⟩

/-- C8: if any of the three reference strings of a create-printer
request fails to parse as a UUID (`none` result of the external
`Uuid::from_str`), the handler aborts by panic before the insert — no
status is produced and the store is untouched; when all three parse, an
insert failure is mapped gracefully to 500 and a healthy insert returns
201 with the new printer appended. -/
theorem create_printer_parse_abort (db : List Printer) (id : Nat)
    (name model : String) (brand toner drum : Option Nat) (insertFails : Bool) :
    ((brand = none ∨ toner = none ∨ drum = none) →
      create_printer db id name model brand toner drum insertFails = (none, db)) ∧
    (∀ b t d, brand = some b → toner = some t → drum = some d →
      create_printer db id name model brand toner drum true =
        (some .internalServerError, db) ∧
      create_printer db id name model brand toner drum false =
        (some .created, db ++ [⟨id, name, model, b, t, d⟩])) := by
  constructor
  · intro habort
    rcases habort with hb | ht | hd
    · simp [create_printer, hb]
    · cases brand <;> simp [create_printer, ht]
    · cases brand <;> cases toner <;> simp [create_printer, hd]
  · rintro b t d rfl rfl rfl
    exact ⟨rfl, rfl⟩

/-- Witness for C8: a request whose toner reference fails to parse
aborts with the store untouched; the same request with all references
parsed inserts the printer. -/
theorem create_printer_parse_abort_witness :
    create_printer [] 0 "LaserJet" "M15w" (some 1) none (some 3) false = (none, []) ∧
    create_printer [] 0 "LaserJet" "M15w" (some 1) (some 2) (some 3) false =
      (some .created, [⟨0, "LaserJet", "M15w", 1, 2, 3⟩]) :=
  ⟨(create_printer_parse_abort [] 0 "LaserJet" "M15w" (some 1) none (some 3)
      false).1 (by decide),
    ((create_printer_parse_abort [] 0 "LaserJet" "M15w" (some 1) (some 2) (some 3)
      false).2 1 2 3 rfl rfl rfl).2⟩

/-- C9: `delete_printer` has no existence pre-check: even for an id
matching no stored printer the DELETE is issued and a healthy statement
returns 200 (with the store unchanged, since nothing matched), while a
storage failure returns 500; `delete_brand`, in contrast, answers 404
for an id that matches no stored brand. -/
theorem delete_printer_unconditional (pdb : List Printer) (bdb : List Brand)
    (id : Nat) :
    ((∀ p ∈ pdb, p.id ≠ id) → delete_printer pdb id false = (.ok, pdb)) ∧
    delete_printer pdb id true = (.internalServerError, pdb) ∧
    ((∀ b ∈ bdb, b.id ≠ id) → delete_brand bdb id false false = (.notFound, bdb)) := by
  refine ⟨fun habsent => ?_, rfl, fun hbabsent => ?_⟩
  · simp only [delete_printer, Bool.false_eq_true, if_false, Prod.mk.injEq, true_and]
    exact List.filter_eq_self.mpr fun p hp => by simpa using habsent p hp
  · have hne : ¬ ∃ b ∈ bdb, b.id = id := by
      rintro ⟨b, hb, hbid⟩
      exact hbabsent b hb hbid
    simp [delete_brand, hne]

/-- Witness for C9 at an id absent from both stores. -/
theorem delete_printer_unconditional_witness :
    delete_printer [⟨5, "LaserJet", "M15w", 1, 2, 3⟩] 9 false =
      (.ok, [⟨5, "LaserJet", "M15w", 1, 2, 3⟩]) ∧
    delete_brand [⟨1, "AcmeCorp"⟩] 9 false false = (.notFound, [⟨1, "AcmeCorp"⟩]) :=
  ⟨(delete_printer_unconditional [⟨5, "LaserJet", "M15w", 1, 2, 3⟩] [⟨1, "AcmeCorp"⟩]
      9).1 (by decide),
    (delete_printer_unconditional [⟨5, "LaserJet", "M15w", 1, 2, 3⟩] [⟨1, "AcmeCorp"⟩]
      9).2.2 (by decide)⟩

/-- Helper: whenever `update_brand` answers 200, the resulting store is
the pointwise rewrite of the old one at the target id. -/
lemma update_brand_ok_db (db : List Brand) (id : Nat) (newName : String)
    (f1 f2 f3 : Bool)
    (hok : (update_brand db id newName f1 f2 f3).1 = .ok) :
    (update_brand db id newName f1 f2 f3).2 =
      db.map fun b => if b.id = id then { b with name := newName } else b := by
  by_cases hf1 : f1 = true
  · simp [update_brand, hf1] at hok
  · by_cases hid : ∃ b ∈ db, b.id = id
    case neg => simp [update_brand, hf1, hid] at hok
    · by_cases h0 : newName.utf8ByteSize = 0
      · simp [update_brand, hf1, hid, h0] at hok
      · by_cases h4 : newName.utf8ByteSize < 4
        · simp [update_brand, hf1, hid, h0, h4] at hok
        · by_cases h20 : newName.utf8ByteSize > 20
          · simp [update_brand, hf1, hid, h0, h4, h20] at hok
          · by_cases hf2 : f2 = true
            · simp [update_brand, hf1, hid, h0, h4, h20, hf2] at hok
            · by_cases hdup : ∃ b ∈ db, b.name = newName ∧ b.id ≠ id
              · simp [update_brand, hf1, hid, h0, h4, h20, hf2, hdup] at hok
              · by_cases hf3 : f3 = true
                · simp [update_brand, hf1, hid, h0, h4, h20, hf2, hdup, hf3] at hok
                · simp [update_brand, hf1, hid, h0, h4, h20, hf2, hdup, hf3]

/-- C10: a successful update-brand (status 200) touches only the brand
with the requested id: the store keeps its length, and every position
holding a brand with a different id holds the very same brand (same id,
same name) afterwards. -/
theorem update_brand_touches_only_target (db : List Brand) (id : Nat)
    (newName : String) (f1 f2 f3 : Bool)
    (hok : (update_brand db id newName f1 f2 f3).1 = .ok) :
    (update_brand db id newName f1 f2 f3).2.length = db.length ∧
    ∀ (i : Nat) (h : i < db.length)
      (h2 : i < (update_brand db id newName f1 f2 f3).2.length),
      (db.get ⟨i, h⟩).id ≠ id →
      (update_brand db id newName f1 f2 f3).2.get ⟨i, h2⟩ = db.get ⟨i, h⟩ := by
  have hdb := update_brand_ok_db db id newName f1 f2 f3 hok
  constructor
  · rw [hdb, List.length_map]
  · intro i h h2 hne
    revert h2
    rw [hdb]
    intro h2
    rw [List.get_map]
    exact if_neg hne

/-- Witness for C10: renaming brand 1 leaves brand 2's entry untouched. -/
theorem update_brand_touches_only_target_witness :
    (update_brand [⟨1, "AlphaOne"⟩, ⟨2, "BetaTwo2"⟩] 1 "GammaNine"
        false false false).2.length =
      ([⟨1, "AlphaOne"⟩, ⟨2, "BetaTwo2"⟩] : List Brand).length ∧
    (update_brand [⟨1, "AlphaOne"⟩, ⟨2, "BetaTwo2"⟩] 1 "GammaNine"
        false false false).2.get ⟨1, by decide⟩ = (⟨2, "BetaTwo2"⟩ : Brand) := by
  have h := update_brand_touches_only_target [⟨1, "AlphaOne"⟩, ⟨2, "BetaTwo2"⟩] 1
    "GammaNine" false false false (by decide)
  exact ⟨h.1, h.2 1 (by decide) (by decide) (by decide)⟩

